import Mathlib

/-!
Verification of the Graph Access Layer of the gti-mcp server.

The adapters (files.py, urls.py, intelligence.py) and the session scope
(server.py) are embedded from the source.  The shared helper module
(utils.py) is not part of the available sources; its operations
(sanitize_response, fetch_object, fetch_object_relationships, url_id,
consume_vt_iterator) are modelled from the specification and marked as
such in their doc comments.
-/

namespace GtiMcp

/-- A decoded JSON-like value, as produced by the upstream API after
decoding a response body.  Objects keep their key order. -/
inductive JsonVal where
  | null : JsonVal
  | bool : Bool → JsonVal
  | num : Int → JsonVal
  | str : String → JsonVal
  | arr : List JsonVal → JsonVal
  | obj : List (String × JsonVal) → JsonVal

/-- Modelled from the spec: utils.sanitize_response is not in the available
sources.  Section 4.6 specifies a recursive walk over maps, sequences and
scalars that removes fields with disallowed names, alters no values, keeps
the remaining key order, and passes unknown shapes through unchanged.  The
disallowed field names are kept abstract as this fixed list; the request
parameters in files.py and urls.py name last_analysis_results as the heavy
attribute excluded wherever possible. -/
def UNSAFE_FIELDS : List String := ["last_analysis_results"]

mutual

/-- Modelled from the spec: recursive sanitizer over a decoded value. -/
def sanitizeVal : JsonVal → JsonVal
  | .obj kvs => .obj (sanitizeObj kvs)
  | .arr xs => .arr (sanitizeArr xs)
  | v => v

/-- Modelled from the spec: sanitizer over a sequence. -/
def sanitizeArr : List JsonVal → List JsonVal
  | [] => []
  | x :: xs => sanitizeVal x :: sanitizeArr xs

/-- Modelled from the spec: sanitizer over the entries of a map, dropping
entries whose field name is disallowed and recursing into kept values. -/
def sanitizeObj : List (String × JsonVal) → List (String × JsonVal)
  | [] => []
  | (k, v) :: kvs =>
      if k ∈ UNSAFE_FIELDS then sanitizeObj kvs
      else (k, sanitizeVal v) :: sanitizeObj kvs

end

/-- Modelled from the spec: utils.sanitize_response, the name used at every
adapter call site. -/
def sanitize_response (v : JsonVal) : JsonVal := sanitizeVal v

mutual

theorem sanitizeVal_idem : ∀ v, sanitizeVal (sanitizeVal v) = sanitizeVal v
  | .null => rfl
  | .bool _ => rfl
  | .num _ => rfl
  | .str _ => rfl
  | .arr xs => by simp [sanitizeVal, sanitizeArr_idem xs]
  | .obj kvs => by simp [sanitizeVal, sanitizeObj_idem kvs]

theorem sanitizeArr_idem : ∀ xs, sanitizeArr (sanitizeArr xs) = sanitizeArr xs
  | [] => rfl
  | x :: xs => by simp [sanitizeArr, sanitizeVal_idem x, sanitizeArr_idem xs]

theorem sanitizeObj_idem : ∀ kvs, sanitizeObj (sanitizeObj kvs) = sanitizeObj kvs
  | [] => rfl
  | (k, v) :: kvs => by
      by_cases hk : k ∈ UNSAFE_FIELDS
      · simp [sanitizeObj, hk, sanitizeObj_idem kvs]
      · simp [sanitizeObj, hk, sanitizeVal_idem v, sanitizeObj_idem kvs]

end

/-! ## Static relationship allow-lists (from the source) -/

/-- FILE_RELATIONSHIPS, files.py lines 23-68. -/
def FILE_RELATIONSHIPS : List String := [
  "bundled_files",
  "carbonblack_children",
  "carbonblack_parents",
  "cloned_files",
  "collections",
  "comments",
  "compressed_parents",
  "contacted_domains",
  "contacted_ips",
  "contacted_urls",
  "dropped_files",
  "email_parents",
  "embedded_domains",
  "embedded_ips",
  "embedded_urls",
  "execution_parents",
  "graphs",
  "historical_ssl_certificates",
  "historical_whois",
  "itw_domains",
  "itw_ips",
  "itw_urls",
  "memory_pattern_domains",
  "memory_pattern_ips",
  "memory_pattern_urls",
  "overlay_parents",
  "pcap_parents",
  "pe_resource_children",
  "pe_resource_parents",
  "related_comments",
  "related_reports",
  "related_threat_actors",
  "reports",
  "similar_files",
  "submissions",
  "screenshots",
  "software_toolkits",
  "target_domains",
  "target_ips",
  "target_urls",
  "urls",
  "user_votes",
  "votes",
  "vulnerabilities"]

/-- FILE_KEY_RELATIONSHIPS, files.py lines 70-74. -/
def FILE_KEY_RELATIONSHIPS : List String :=
  ["contacted_domains", "contacted_ips", "contacted_urls"]

/-- URL_RELATIONSHIPS, urls.py lines 23-51. -/
def URL_RELATIONSHIPS : List String := [
  "analyses",
  "associations",
  "campaigns",
  "collections",
  "comments",
  "communicating_files",
  "contacted_domains",
  "contacted_ips",
  "downloaded_files",
  "embedded_js_files",
  "graphs",
  "http_response_contents",
  "last_serving_ip_address",
  "malware_families",
  "memory_pattern_parents",
  "network_location",
  "redirecting_urls",
  "referrer_files",
  "related_comments",
  "related_reports",
  "related_threat_actors",
  "reports",
  "submissions",
  "screenshots",
  "software_toolkits",
  "user_votes",
  "votes"]

/-- URL_KEY_RELATIONSHIPS, urls.py lines 53-56. -/
def URL_KEY_RELATIONSHIPS : List String :=
  ["last_serving_ip_address", "network_location"]

/-- HUNTING_RULESET_RELATIONSHIPS, intelligence.py lines 6-8. -/
def HUNTING_RULESET_RELATIONSHIPS : List String :=
  ["hunting_notification_files"]

/-! ## Errors and the upstream page protocol -/

/-- Failure outcomes of the Graph Access Layer (spec section 7). -/
inductive FetchError where
  | NotFound : String → String → FetchError
  | UpstreamError : Nat → String → FetchError

/-- One fetch unit from a list endpoint: a data array plus an optional
continuation cursor; a page with no cursor signals exhaustion (spec
section 6). -/
structure Page where
  data : List JsonVal
  cursor : Option String

/-- What the upstream returns for one page request: a page, or a
non-success status with a diagnostic body. -/
inductive PageResult where
  | ok : Page → PageResult
  | err : Nat → String → PageResult

/-- Number of items the upstream holds across its successful pages. -/
def totalItems : List PageResult → Nat
  | [] => 0
  | .ok pg :: rest => pg.data.length + totalItems rest
  | .err _ _ :: _ => 0

/-- An upstream run with no failures in which every page except the last
carries a continuation cursor, so the walk can reach every item. -/
def coherentUpstream : List PageResult → Bool
  | [] => true
  | .err _ _ :: _ => false
  | [.ok _] => true
  | .ok pg :: p :: rest => pg.cursor.isSome && coherentUpstream (p :: rest)

/-- Items accumulated across a failure-free run of pages, in arrival
order. -/
def okPagesData : List PageResult → List JsonVal
  | [] => []
  | .ok pg :: rest => pg.data ++ okPagesData rest
  | .err _ _ :: _ => []

/-- Every page of the run succeeded and carries a continuation cursor. -/
def allOkCursored : List PageResult → Bool
  | [] => true
  | .ok pg :: rest => pg.cursor.isSome && allOkCursored rest
  | .err _ _ :: _ => false

/-! ## Relationship paginator -/

/-- Modelled from the spec: the page walk of utils.fetch_object_relationships
(not in the available sources).  Section 4.2: accumulate page items,
sanitizing each page as it arrives, until the accumulated count reaches the
limit (truncate to exactly the limit, fetch no further page) or the API
reports no further cursor.  Section 4.2 and 7: a failure on the first page
fails with UpstreamError; a failure after at least one successful page
returns the partial accumulated sequence. -/
def walkPages : List PageResult → Nat → List JsonVal → Bool →
    Except FetchError (List JsonVal)
  | pages, limit, acc, first =>
    if limit ≤ acc.length then .ok (acc.take limit)
    else
      match pages with
      | [] => .ok acc
      | .err status body :: _ =>
          if first then .error (.UpstreamError status body) else .ok acc
      | .ok pg :: rest =>
          if limit ≤ (acc ++ sanitizeArr pg.data).length then
            .ok ((acc ++ sanitizeArr pg.data).take limit)
          else
            match pg.cursor with
            | none => .ok (acc ++ sanitizeArr pg.data)
            | some _ => walkPages rest limit (acc ++ sanitizeArr pg.data) false

/-- Modelled from the spec: utils.fetch_object_relationships for a single
already-validated relationship, run against a given upstream page
sequence. -/
def fetch_object_relationships (upstream : List PageResult) (limit : Nat) :
    Except FetchError (List JsonVal) :=
  walkPages upstream limit [] true

/-- Number of page requests the walk sends for a given upstream and limit:
the same recursion as walkPages, counting one request per page taken from
the upstream. -/
def walkCalls : List PageResult → Nat → Nat → Nat
  | pages, limit, accLen =>
    if limit ≤ accLen then 0
    else
      match pages with
      | [] => 0
      | .err _ _ :: _ => 1
      | .ok pg :: rest =>
          let accLen2 := accLen + pg.data.length
          if limit ≤ accLen2 then 1
          else
            match pg.cursor with
            | none => 1
            | some _ => 1 + walkCalls rest limit accLen2

/-! ## Identifier encoder -/

/-- URL-safe base64 alphabet. -/
def b64Alphabet : List Char :=
  "ABCDEFGHIJKLMNOPQRSTUVWXYZabcdefghijklmnopqrstuvwxyz0123456789-_".toList

/-- Digit of the URL-safe base64 alphabet. -/
def b64Char (n : Nat) : Char := b64Alphabet.getD n "A".toList.head!

/-- UTF-8 byte sequence of one character, as byte values. -/
def utf8Bytes (c : Char) : List Nat :=
  let n := c.toNat
  if n < 128 then [n]
  else if n < 2048 then [192 + n / 64, 128 + n % 64]
  else if n < 65536 then [224 + n / 4096, 128 + (n / 64) % 64, 128 + n % 64]
  else [240 + n / 262144, 128 + (n / 4096) % 64, 128 + (n / 64) % 64,
        128 + n % 64]

/-- Unpadded base64 of a byte sequence over the URL-safe alphabet. -/
def b64Encode : List Nat → List Char
  | [] => []
  | [a] => [b64Char (a / 4), b64Char ((a % 4) * 16)]
  | [a, b] =>
      [b64Char (a / 4), b64Char ((a % 4) * 16 + b / 16), b64Char ((b % 16) * 4)]
  | a :: b :: c :: rest =>
      b64Char (a / 4) :: b64Char ((a % 4) * 16 + b / 16) ::
      b64Char ((b % 16) * 4 + c / 64) :: b64Char (c % 64) :: b64Encode rest

/-- Modelled from the spec: utils.url_id is not in the available sources.
Section 4.4 specifies a deterministic, URL-safe canonical encoding of the
raw URL string with no timestamp, no randomness and no local URL
normalization.  Modelled as unpadded URL-safe base64 of the UTF-8 bytes of
the raw string. -/
def url_id (url : String) : String :=
  String.mk (b64Encode ((url.data.map utf8Bytes).flatten))

/-! ## Session scope (server.py vt_client) -/

/-- State of the client acquired for one invocation. -/
structure Session where
  closed : Bool

/-- The close_async call on the underlying client. -/
def close_async (s : Session) : Session := { s with closed := true }

/-- The vt_client async context manager of server.py lines 37-45: a fresh
client is produced for the request body; the try/finally discipline runs
close_async on the client after the body, whether the body produced a
value or raised, and then propagates the body outcome. -/
def vt_client {α : Type} (body : Session → α × Session) : α × Session :=
  let s : Session := { closed := false }
  let out := body s
  (out.1, close_async out.2)

/-! ## Object fetcher -/

/-- A one-round-trip upstream answer for a single-object GET: the HTTP
status and the decoded body. -/
structure ObjectResponse where
  status : Nat
  body : JsonVal

/-- The single GET request the object fetcher issues: collection path,
entity id, relationships to embed inline, and query parameters passed
through verbatim. -/
structure ObjectRequest where
  collection : String
  entityId : String
  relationships : List String
  params : List (String × String)

/-- Modelled from the spec: utils.fetch_object is not in the available
sources.  Section 4.1: builds one authenticated GET to the canonical path
of the entity, embedding the listed relationships and passing the query
parameters through verbatim; a 404-equivalent response fails with
NotFound(entityType, id); any other non-success status fails with
UpstreamError(status, body); on success the sanitizer is applied to the
decoded body.  Returns the request issued together with the outcome. -/
def fetch_object (entityType : String) (id : String)
    (relationships : List String) (params : List (String × String))
    (resp : ObjectResponse) : ObjectRequest × Except FetchError JsonVal :=
  ({ collection := entityType, entityId := id,
     relationships := relationships, params := params },
   if resp.status = 200 then .ok (sanitize_response resp.body)
   else if resp.status = 404 then .error (.NotFound entityType id)
   else .error (.UpstreamError resp.status "upstream failure"))

/-! ## Adapter embeddings: single-object tools -/

/-- Observable outcome of a single-object tool invocation. -/
structure ObjToolOut where
  result : Except FetchError JsonVal
  request : ObjectRequest
  sessionClosed : Bool

/-- get_file_report, files.py lines 79-95: inside the vt_client scope,
fetch_object on collection files with the key relationships and the
last_analysis_results exclusion, then sanitize_response on the result. -/
def get_file_report (hash : String) (resp : ObjectResponse) : ObjToolOut :=
  let run := vt_client (fun s =>
    ((fetch_object "files" hash FILE_KEY_RELATIONSHIPS
        [("exclude_attributes", "last_analysis_results")] resp), s))
  { result := run.1.2.map sanitize_response,
    request := run.1.1,
    sessionClosed := run.2.closed }

/-- get_url_report, urls.py lines 61-77: inside the vt_client scope,
fetch_object on collection urls with entity id url_id(url), the key
relationships and the last_analysis_results exclusion, then
sanitize_response on the result. -/
def get_url_report (url : String) (resp : ObjectResponse) : ObjToolOut :=
  let run := vt_client (fun s =>
    ((fetch_object "urls" (url_id url) URL_KEY_RELATIONSHIPS
        [("exclude_attributes", "last_analysis_results")] resp), s))
  { result := run.1.2.map sanitize_response,
    request := run.1.1,
    sessionClosed := run.2.closed }

/-! ## Adapter embeddings: relationship tools -/

/-- What a relationship tool hands back to the calling agent. -/
inductive RelToolResult where
  | errorMsg : String → RelToolResult
  | items : List JsonVal → RelToolResult
  | raised : FetchError → RelToolResult

/-- The structured error dict built by the adapters when the relationship
name is not in the allow-list; the allow-list is echoed back verbatim,
comma-joined, inside the message. -/
def unknownRelationshipMsg (rel : String) (allowed : List String) : String :=
  "Relationship " ++ rel ++ " does not exist. " ++
  "Available relationships are: " ++ String.intercalate "," allowed

/-- Observable outcome of a relationship tool invocation. -/
structure RelToolOut where
  result : RelToolResult
  sessionAcquired : Bool
  sessionClosed : Bool
  networkCalls : Nat
  requestedCollection : Option String
  requestedId : Option String
  descriptorsOnly : Option Bool

/-- get_entities_related_to_a_file, files.py lines 99-174: if the
relationship name is not in FILE_RELATIONSHIPS, return the error dict
before any client is acquired; otherwise, inside the vt_client scope, run
fetch_object_relationships on collection files for the given hash and
sanitize the resulting list. -/
def get_entities_related_to_a_file (hash : String) (relationship_name : String)
    (descriptors_only : Bool) (upstream : List PageResult)
    (limit : Nat := 10) : RelToolOut :=
  if relationship_name ∈ FILE_RELATIONSHIPS then
    let run := vt_client (fun s =>
      (fetch_object_relationships upstream limit, s))
    { result := match run.1 with
        | .ok xs => .items (sanitizeArr xs)
        | .error e => .raised e,
      sessionAcquired := true,
      sessionClosed := run.2.closed,
      networkCalls := walkCalls upstream limit 0,
      requestedCollection := some "files",
      requestedId := some hash,
      descriptorsOnly := some descriptors_only }
  else
    { result := .errorMsg (unknownRelationshipMsg relationship_name
        FILE_RELATIONSHIPS),
      sessionAcquired := false,
      sessionClosed := false,
      networkCalls := 0,
      requestedCollection := none,
      requestedId := none,
      descriptorsOnly := none }

/-- get_entities_related_to_a_url, urls.py lines 81-133: same shape as the
file tool, with URL_RELATIONSHIPS as the allow-list, collection urls, and
url_id(url) as the entity identifier. -/
def get_entities_related_to_a_url (url : String) (relationship_name : String)
    (descriptors_only : Bool) (upstream : List PageResult)
    (limit : Nat := 10) : RelToolOut :=
  if relationship_name ∈ URL_RELATIONSHIPS then
    let run := vt_client (fun s =>
      (fetch_object_relationships upstream limit, s))
    { result := match run.1 with
        | .ok xs => .items (sanitizeArr xs)
        | .error e => .raised e,
      sessionAcquired := true,
      sessionClosed := run.2.closed,
      networkCalls := walkCalls upstream limit 0,
      requestedCollection := some "urls",
      requestedId := some (url_id url),
      descriptorsOnly := some descriptors_only }
  else
    { result := .errorMsg (unknownRelationshipMsg relationship_name
        URL_RELATIONSHIPS),
      sessionAcquired := false,
      sessionClosed := false,
      networkCalls := 0,
      requestedCollection := none,
      requestedId := none,
      descriptorsOnly := none }

/-- get_entities_related_to_a_hunting_ruleset, intelligence.py lines
93-124: same shape, with HUNTING_RULESET_RELATIONSHIPS as the allow-list
and collection intelligence/hunting_rulesets; no descriptors_only
parameter exists on this tool. -/
def get_entities_related_to_a_hunting_ruleset (ruleset_id : String)
    (relationship_name : String) (upstream : List PageResult)
    (limit : Nat := 10) : RelToolOut :=
  if relationship_name ∈ HUNTING_RULESET_RELATIONSHIPS then
    let run := vt_client (fun s =>
      (fetch_object_relationships upstream limit, s))
    { result := match run.1 with
        | .ok xs => .items (sanitizeArr xs)
        | .error e => .raised e,
      sessionAcquired := true,
      sessionClosed := run.2.closed,
      networkCalls := walkCalls upstream limit 0,
      requestedCollection := some "intelligence/hunting_rulesets",
      requestedId := some ruleset_id,
      descriptorsOnly := none }
  else
    { result := .errorMsg (unknownRelationshipMsg relationship_name
        HUNTING_RULESET_RELATIONSHIPS),
      sessionAcquired := false,
      sessionClosed := false,
      networkCalls := 0,
      requestedCollection := none,
      requestedId := none,
      descriptorsOnly := none }

/-! ## Adapter embeddings: search tools -/

/-- The call the search consumer issues: flat endpoint path, query
parameters passed through unmodified, and the item limit. -/
structure SearchCall where
  path : String
  params : List (String × String)
  limit : Nat

/-- Modelled from the spec: utils.consume_vt_iterator is not in the
available sources.  Section 4.3: same cursor/limit discipline as the
relationship paginator over a flat endpoint, query parameters passed
through unmodified, each yielded item sanitized.  Returns the call issued
together with the outcome. -/
def consume_vt_iterator (path : String) (params : List (String × String))
    (upstream : List PageResult) (limit : Nat) :
    SearchCall × Except FetchError (List JsonVal) :=
  ({ path := path, params := params, limit := limit },
   walkPages upstream limit [] true)

/-- search, intelligence.py lines 12-33: inside the vt_client scope,
consume_vt_iterator on /intelligence/search with the query string and the
order_by key forwarded verbatim as the query and order parameters. -/
def search (query : String) (upstream : List PageResult) (limit : Nat := 10)
    (order_by : String := "relevance-") :
    SearchCall × Except FetchError (List JsonVal) × Session :=
  let run := vt_client (fun s =>
    (consume_vt_iterator "/intelligence/search"
      [("query", query), ("order", order_by)] upstream limit, s))
  (run.1.1, run.1.2.map sanitizeArr, run.2)

/-- get_whois, intelligence.py lines 37-55: inside the vt_client scope,
consume_vt_iterator on /intelligence/whois_search with the query string
forwarded verbatim as the query parameter. -/
def get_whois (query : String) (upstream : List PageResult)
    (limit : Nat := 10) :
    SearchCall × Except FetchError (List JsonVal) × Session :=
  let run := vt_client (fun s =>
    (consume_vt_iterator "/intelligence/whois_search"
      [("query", query)] upstream limit, s))
  (run.1.1, run.1.2.map sanitizeArr, run.2)

/-! ## get_file_behavior_summary -/

/-- A runtime fault of the host language: subscripting a map with a key it
does not hold. -/
inductive PyError where
  | KeyError : String → PyError

/-- First value stored under a key in a decoded JSON object. -/
def lookupKey : List (String × JsonVal) → String → Option JsonVal
  | [], _ => none
  | (k, v) :: rest, key => if k = key then some v else lookupKey rest key

/-- Subscripting a decoded JSON object: the value when the key is present,
a KeyError otherwise. -/
def dictSubscript (kvs : List (String × JsonVal)) (key : String) :
    Except PyError JsonVal :=
  match lookupKey kvs key with
  | some v => .ok v
  | none => .error (.KeyError key)

/-- get_file_behavior_summary, files.py lines 213-224: GET
/files/(hash)/behaviour_summary, decode the body, subscript it with the
key data with no guard, and return sanitize_response of that value;
a missing key surfaces as an uncaught KeyError.  The decoded body is the
list of entries of the top-level JSON object.  Returns the request path
and the outcome. -/
def get_file_behavior_summary (hash : String)
    (res : List (String × JsonVal)) : String × Except PyError JsonVal :=
  ("/files/" ++ hash ++ "/behaviour_summary",
   (dictSubscript res "data").map sanitize_response)

/-! ## Helper lemmas -/

theorem sanitizeArr_length : ∀ xs : List JsonVal,
    (sanitizeArr xs).length = xs.length
  | [] => rfl
  | x :: xs => by simp [sanitizeArr, sanitizeArr_length xs]

theorem walkPages_length_le :
    ∀ (pages : List PageResult) (limit : Nat) (acc : List JsonVal)
      (first : Bool) (xs : List JsonVal),
      walkPages pages limit acc first = Except.ok xs → xs.length ≤ limit
  | [], limit, acc, first, xs => by
      intro h
      rw [walkPages] at h
      by_cases h1 : limit ≤ acc.length
      · simp only [if_pos h1] at h
        cases h
        simp [List.length_take]
      · simp only [if_neg h1] at h
        cases h
        omega
  | .err s b :: rest, limit, acc, first, xs => by
      intro h
      rw [walkPages] at h
      by_cases h1 : limit ≤ acc.length
      · simp only [if_pos h1] at h
        cases h
        simp [List.length_take]
      · simp only [if_neg h1] at h
        cases first with
        | true => simp at h
        | false => simp at h; cases h; omega
  | .ok pg :: rest, limit, acc, first, xs => by
      intro h
      rw [walkPages] at h
      by_cases h1 : limit ≤ acc.length
      · simp only [if_pos h1] at h
        cases h
        simp [List.length_take]
      · simp only [if_neg h1] at h
        by_cases h2 : limit ≤ (acc ++ sanitizeArr pg.data).length
        · simp only [if_pos h2] at h
          cases h
          simp [List.length_take]
        · simp only [if_neg h2] at h
          cases hcur : pg.cursor with
          | none =>
              rw [hcur] at h
              simp at h
              cases h
              omega
          | some c =>
              rw [hcur] at h
              simp at h
              exact walkPages_length_le rest limit _ false xs h

theorem walkPages_exact :
    ∀ (pages : List PageResult) (limit : Nat) (acc : List JsonVal)
      (first : Bool),
      coherentUpstream pages = true →
      limit ≤ acc.length + totalItems pages →
      ∃ xs, walkPages pages limit acc first = Except.ok xs ∧
        xs.length = limit
  | [], limit, acc, first => by
      intro _ htot
      simp [totalItems] at htot
      refine ⟨acc.take limit, ?_, ?_⟩
      · rw [walkPages]
        simp [htot]
      · simp [List.length_take]
        omega
  | .err s b :: rest, limit, acc, first => by
      intro hcoh _
      simp [coherentUpstream] at hcoh
  | .ok pg :: rest, limit, acc, first => by
      intro hcoh htot
      have hlapp : (acc ++ sanitizeArr pg.data).length =
          acc.length + pg.data.length := by
        simp [sanitizeArr_length]
      by_cases h1 : limit ≤ acc.length
      · refine ⟨acc.take limit, ?_, ?_⟩
        · rw [walkPages]
          simp only [if_pos h1]
        · rw [List.length_take]
          omega
      · by_cases h2 : limit ≤ (acc ++ sanitizeArr pg.data).length
        · refine ⟨(acc ++ sanitizeArr pg.data).take limit, ?_, ?_⟩
          · rw [walkPages]
            simp only [if_neg h1, if_pos h2]
          · rw [List.length_take]
            omega
        · cases rest with
          | nil =>
              exfalso
              simp [totalItems] at htot
              omega
          | cons p rest2 =>
              simp [coherentUpstream] at hcoh
              obtain ⟨hc, hcoh2⟩ := hcoh
              cases hcur : pg.cursor with
              | none =>
                  rw [hcur] at hc
                  simp at hc
              | some c =>
                  have hlen : limit ≤ (acc ++ sanitizeArr pg.data).length +
                      totalItems (p :: rest2) := by
                    simp [totalItems] at htot
                    omega
                  obtain ⟨xs, hxs, hlenxs⟩ :=
                    walkPages_exact (p :: rest2) limit
                      (acc ++ sanitizeArr pg.data) false hcoh2 hlen
                  refine ⟨xs, ?_, hlenxs⟩
                  rw [walkPages]
                  simp only [if_neg h1, if_neg h2, hcur]
                  exact hxs

theorem sanitizeArr_append : ∀ xs ys : List JsonVal,
    sanitizeArr (xs ++ ys) = sanitizeArr xs ++ sanitizeArr ys
  | [], ys => rfl
  | x :: xs, ys => by simp [sanitizeArr, sanitizeArr_append xs ys]

theorem walkPages_err_not_first (s : Nat) (b : String)
    (rest : List PageResult) (l : Nat) (acc : List JsonVal)
    (hlt : acc.length < l) :
    walkPages (PageResult.err s b :: rest) l acc false = Except.ok acc := by
  rw [walkPages]
  have h1 : ¬ l ≤ acc.length := by omega
  simp only [if_neg h1]
  simp

theorem walkPages_through_run :
    ∀ (pre tail : List PageResult) (l : Nat) (acc : List JsonVal)
      (first : Bool),
      pre ≠ [] →
      allOkCursored pre = true →
      acc.length + (okPagesData pre).length < l →
      walkPages (pre ++ tail) l acc first =
        walkPages tail l (acc ++ sanitizeArr (okPagesData pre)) false
  | [], _, _, _, _ => by
      intro hne _ _
      exact absurd rfl hne
  | .err s b :: pre2, tail, l, acc, first => by
      intro _ hok _
      simp [allOkCursored] at hok
  | .ok pg :: pre2, tail, l, acc, first => by
      intro _ hok hlen
      simp only [allOkCursored, Bool.and_eq_true] at hok
      obtain ⟨hc, hok2⟩ := hok
      have hdata : okPagesData (PageResult.ok pg :: pre2) =
          pg.data ++ okPagesData pre2 := rfl
      rw [hdata] at hlen
      have h1 : ¬ l ≤ acc.length := by
        simp [List.length_append] at hlen
        omega
      have h2 : ¬ l ≤ (acc ++ sanitizeArr pg.data).length := by
        simp [List.length_append] at hlen
        simp [sanitizeArr_length]
        omega
      cases hcur : pg.cursor with
      | none =>
          rw [hcur] at hc
          simp at hc
      | some c =>
          rw [List.cons_append, walkPages]
          simp only [if_neg h1, if_neg h2, hcur]
          cases pre2 with
          | nil =>
              simp [okPagesData]
          | cons q pre3 =>
              rw [walkPages_through_run (q :: pre3) tail l
                    (acc ++ sanitizeArr pg.data) false (by simp) hok2 (by
                  simp [List.length_append] at hlen ⊢
                  simp [sanitizeArr_length]
                  omega)]
              rw [hdata, sanitizeArr_append, List.append_assoc]

/-! ## Claim theorems -/

/-- C3: the response sanitizer is idempotent: for every well-formed
JSON-like value x, sanitize_response (sanitize_response x) equals
sanitize_response x, so sanitizing an already-sanitized payload is a
no-op. -/
theorem claim_C3_sanitize_idempotent :
    ∀ v : JsonVal, sanitize_response (sanitize_response v) =
      sanitize_response v :=
  fun v => sanitizeVal_idem v

/-- C1: every relationship fetch with limit N returns at most N items;
against a coherent upstream holding at least N items it returns exactly N
items; the relationship tools return at most limit items; and each of the
three relationship tools defaults limit to 10 when the caller omits it. -/
theorem claim_C1_fetch_limit_semantics :
    (∀ (up : List PageResult) (l : Nat) (xs : List JsonVal),
        fetch_object_relationships up l = Except.ok xs → xs.length ≤ l) ∧
    (∀ (up : List PageResult) (l : Nat),
        coherentUpstream up = true → l ≤ totalItems up →
        ∃ xs, fetch_object_relationships up l = Except.ok xs ∧
          xs.length = l) ∧
    (∀ (h r : String) (d : Bool) (up : List PageResult) (l : Nat)
        (xs : List JsonVal),
        (get_entities_related_to_a_file h r d up l).result =
          RelToolResult.items xs → xs.length ≤ l) ∧
    (∀ (h r : String) (d : Bool) (up : List PageResult),
        get_entities_related_to_a_file h r d up =
          get_entities_related_to_a_file h r d up 10) ∧
    (∀ (u r : String) (d : Bool) (up : List PageResult),
        get_entities_related_to_a_url u r d up =
          get_entities_related_to_a_url u r d up 10) ∧
    (∀ (i r : String) (up : List PageResult),
        get_entities_related_to_a_hunting_ruleset i r up =
          get_entities_related_to_a_hunting_ruleset i r up 10) := by
  refine ⟨?_, ?_, ?_, ?_, ?_, ?_⟩
  · intro up l xs h
    exact walkPages_length_le up l [] true xs h
  · intro up l hc ht
    exact walkPages_exact up l [] true hc (by simpa using ht)
  · intro h r d up l xs hres
    unfold get_entities_related_to_a_file at hres
    by_cases hrel : r ∈ FILE_RELATIONSHIPS
    · simp only [if_pos hrel, vt_client, close_async] at hres
      cases hfetch : fetch_object_relationships up l with
      | ok ys =>
          rw [hfetch] at hres
          simp at hres
          have hlen := walkPages_length_le up l [] true ys hfetch
          calc xs.length = (sanitizeArr ys).length := by rw [hres]
            _ = ys.length := sanitizeArr_length ys
            _ ≤ l := hlen
      | error e =>
          rw [hfetch] at hres
          simp at hres
    · simp only [if_neg hrel] at hres
      simp at hres
  · intro h r d up
    rfl
  · intro u r d up
    rfl
  · intro i r up
    rfl

/-- Witness for C1: applies the limit theorem to the concrete upstream of
the spec scenario, three items on page one with a cursor and four on page
two without one, at limit five. -/
theorem claim_C1_witness :
    (∃ xs, fetch_object_relationships
        [PageResult.ok { data := [JsonVal.num 1, JsonVal.num 2, JsonVal.num 3],
                         cursor := some "cur" },
         PageResult.ok { data := [JsonVal.num 4, JsonVal.num 5, JsonVal.num 6,
                                  JsonVal.num 7], cursor := none }] 5 =
        Except.ok xs ∧ xs.length = 5) ∧
    ([JsonVal.num 1, JsonVal.num 2, JsonVal.num 3, JsonVal.num 4,
      JsonVal.num 5] : List JsonVal).length ≤ 5 ∧
    ([JsonVal.num 1, JsonVal.num 2, JsonVal.num 3] : List JsonVal).length
      ≤ 10 := by
  refine ⟨?_, ?_, ?_⟩
  · exact claim_C1_fetch_limit_semantics.2.1
      [PageResult.ok { data := [JsonVal.num 1, JsonVal.num 2, JsonVal.num 3],
                       cursor := some "cur" },
       PageResult.ok { data := [JsonVal.num 4, JsonVal.num 5, JsonVal.num 6,
                                JsonVal.num 7], cursor := none }] 5
      (by decide) (by decide)
  · exact claim_C1_fetch_limit_semantics.1
      [PageResult.ok { data := [JsonVal.num 1, JsonVal.num 2, JsonVal.num 3],
                       cursor := some "cur" },
       PageResult.ok { data := [JsonVal.num 4, JsonVal.num 5, JsonVal.num 6,
                                JsonVal.num 7], cursor := none }] 5
      [JsonVal.num 1, JsonVal.num 2, JsonVal.num 3, JsonVal.num 4,
       JsonVal.num 5] rfl
  · exact claim_C1_fetch_limit_semantics.2.2.1 "aaa" "contacted_domains"
      true
      [PageResult.ok { data := [JsonVal.num 1, JsonVal.num 2, JsonVal.num 3],
                       cursor := none }] 10
      [JsonVal.num 1, JsonVal.num 2, JsonVal.num 3] rfl

/-- C2: for every relationship name outside the allow-list, each of the
three relationship tools returns the structured error dict that echoes the
allow-list, performs zero network calls, and never acquires the client. -/
theorem claim_C2_unknown_relationship_fails_fast :
    ∀ (rel h u i : String) (d : Bool) (up : List PageResult) (l : Nat),
      (rel ∉ FILE_RELATIONSHIPS →
        (get_entities_related_to_a_file h rel d up l).result =
          RelToolResult.errorMsg
            (unknownRelationshipMsg rel FILE_RELATIONSHIPS) ∧
        (get_entities_related_to_a_file h rel d up l).networkCalls = 0 ∧
        (get_entities_related_to_a_file h rel d up l).sessionAcquired = false) ∧
      (rel ∉ URL_RELATIONSHIPS →
        (get_entities_related_to_a_url u rel d up l).result =
          RelToolResult.errorMsg
            (unknownRelationshipMsg rel URL_RELATIONSHIPS) ∧
        (get_entities_related_to_a_url u rel d up l).networkCalls = 0 ∧
        (get_entities_related_to_a_url u rel d up l).sessionAcquired = false) ∧
      (rel ∉ HUNTING_RULESET_RELATIONSHIPS →
        (get_entities_related_to_a_hunting_ruleset i rel up l).result =
          RelToolResult.errorMsg
            (unknownRelationshipMsg rel HUNTING_RULESET_RELATIONSHIPS) ∧
        (get_entities_related_to_a_hunting_ruleset i rel up l).networkCalls = 0 ∧
        (get_entities_related_to_a_hunting_ruleset i rel up l).sessionAcquired = false) := by
  intro rel h u i d up l
  refine ⟨?_, ?_, ?_⟩
  · intro hrel
    unfold get_entities_related_to_a_file
    simp [if_neg hrel]
  · intro hrel
    unfold get_entities_related_to_a_url
    simp [if_neg hrel]
  · intro hrel
    unfold get_entities_related_to_a_hunting_ruleset
    simp [if_neg hrel]

/-- Witness for C2: the relationship name not_a_real_relationship of the
spec scenario is outside all three allow-lists; the file tool returns the
error dict with zero network calls and no client acquired. -/
theorem claim_C2_witness :
    (get_entities_related_to_a_file "aaa" "not_a_real_relationship" true
      [] 10).result =
      RelToolResult.errorMsg
        (unknownRelationshipMsg "not_a_real_relationship"
          FILE_RELATIONSHIPS) ∧
    (get_entities_related_to_a_file "aaa" "not_a_real_relationship" true
      [] 10).networkCalls = 0 ∧
    (get_entities_related_to_a_file "aaa" "not_a_real_relationship" true
      [] 10).sessionAcquired = false :=
  (claim_C2_unknown_relationship_fails_fast "not_a_real_relationship"
    "aaa" "u" "i" true [] 10).1 (by decide)

/-- C4: a failure on the very first page of a pagination walk fails the
call with UpstreamError, while a failure after any number of successful
pages, at least one, returns the partial accumulated sequence; the file
tool accordingly raises on a first-page failure and hands back the
partial items on a later one. -/
theorem claim_C4_partial_results :
    (∀ (s : Nat) (b : String) (rest : List PageResult) (l : Nat),
        0 < l →
        fetch_object_relationships (PageResult.err s b :: rest) l =
          Except.error (FetchError.UpstreamError s b)) ∧
    (∀ (pre : List PageResult) (s : Nat) (b : String)
        (rest : List PageResult) (l : Nat),
        pre ≠ [] → allOkCursored pre = true →
        (okPagesData pre).length < l →
        fetch_object_relationships
            (pre ++ PageResult.err s b :: rest) l =
          Except.ok (sanitizeArr (okPagesData pre))) ∧
    (∀ (h r : String) (d : Bool) (s : Nat) (b : String)
        (rest : List PageResult) (l : Nat),
        r ∈ FILE_RELATIONSHIPS → 0 < l →
        (get_entities_related_to_a_file h r d
            (PageResult.err s b :: rest) l).result =
          RelToolResult.raised (FetchError.UpstreamError s b)) ∧
    (∀ (h r : String) (d : Bool) (pre : List PageResult) (s : Nat)
        (b : String) (rest : List PageResult) (l : Nat),
        r ∈ FILE_RELATIONSHIPS → pre ≠ [] → allOkCursored pre = true →
        (okPagesData pre).length < l →
        (get_entities_related_to_a_file h r d
            (pre ++ PageResult.err s b :: rest) l).result =
          RelToolResult.items (sanitizeArr (okPagesData pre))) := by
  have hfirst : ∀ (s : Nat) (b : String) (rest : List PageResult)
      (l : Nat), 0 < l →
      fetch_object_relationships (PageResult.err s b :: rest) l =
        Except.error (FetchError.UpstreamError s b) := by
    intro s b rest l hl
    unfold fetch_object_relationships
    rw [walkPages]
    have h1 : ¬ l ≤ ([] : List JsonVal).length := by simp; omega
    simp only [if_neg h1]
    simp
  have hlater : ∀ (pre : List PageResult) (s : Nat) (b : String)
      (rest : List PageResult) (l : Nat),
      pre ≠ [] → allOkCursored pre = true →
      (okPagesData pre).length < l →
      fetch_object_relationships (pre ++ PageResult.err s b :: rest) l =
        Except.ok (sanitizeArr (okPagesData pre)) := by
    intro pre s b rest l hne hok hlen
    unfold fetch_object_relationships
    rw [walkPages_through_run pre (PageResult.err s b :: rest) l [] true
          hne hok (by simpa using hlen)]
    rw [walkPages_err_not_first s b rest l _
          (by simpa [sanitizeArr_length] using hlen)]
    simp
  refine ⟨hfirst, hlater, ?_, ?_⟩
  · intro h r d s b rest l hrel hl
    unfold get_entities_related_to_a_file
    simp only [if_pos hrel, vt_client, close_async]
    rw [hfirst s b rest l hl]
  · intro h r d pre s b rest l hrel hne hok hlen
    unfold get_entities_related_to_a_file
    simp only [if_pos hrel, vt_client, close_async]
    rw [hlater pre s b rest l hne hok hlen]
    simp [sanitizeArr_idem]

/-- Witness for C4: a first-page failure with status 500 fails with
UpstreamError; a walk whose pages one and two succeed, with two items and
one item, before page three fails at limit ten returns those three
accumulated items, both at the paginator and through the file tool. -/
theorem claim_C4_witness :
    fetch_object_relationships
        [PageResult.err 500 "boom"] 10 =
      Except.error (FetchError.UpstreamError 500 "boom") ∧
    fetch_object_relationships
        [PageResult.ok { data := [JsonVal.num 1, JsonVal.num 2],
                         cursor := some "c1" },
         PageResult.ok { data := [JsonVal.num 3], cursor := some "c2" },
         PageResult.err 500 "boom"] 10 =
      Except.ok (sanitizeArr (okPagesData
        [PageResult.ok { data := [JsonVal.num 1, JsonVal.num 2],
                         cursor := some "c1" },
         PageResult.ok { data := [JsonVal.num 3],
                         cursor := some "c2" }])) ∧
    (get_entities_related_to_a_file "aaa" "contacted_domains" true
        [PageResult.ok { data := [JsonVal.num 1, JsonVal.num 2],
                         cursor := some "c1" },
         PageResult.ok { data := [JsonVal.num 3], cursor := some "c2" },
         PageResult.err 500 "boom"] 10).result =
      RelToolResult.items (sanitizeArr (okPagesData
        [PageResult.ok { data := [JsonVal.num 1, JsonVal.num 2],
                         cursor := some "c1" },
         PageResult.ok { data := [JsonVal.num 3],
                         cursor := some "c2" }])) := by
  refine ⟨?_, ?_, ?_⟩
  · exact claim_C4_partial_results.1 500 "boom" [] 10 (by omega)
  · exact claim_C4_partial_results.2.1
      [PageResult.ok { data := [JsonVal.num 1, JsonVal.num 2],
                       cursor := some "c1" },
       PageResult.ok { data := [JsonVal.num 3], cursor := some "c2" }]
      500 "boom" [] 10 (by simp) (by decide) (by decide)
  · exact claim_C4_partial_results.2.2.2 "aaa" "contacted_domains" true
      [PageResult.ok { data := [JsonVal.num 1, JsonVal.num 2],
                       cursor := some "c1" },
       PageResult.ok { data := [JsonVal.num 3], cursor := some "c2" }]
      500 "boom" [] 10 (by decide) (by simp) (by decide) (by decide)

/-- C5: relationship-name validation is an exact, case-sensitive
membership test against the allow-list: every listed name proceeds past
validation and acquires the client, and every unlisted name is answered
with the structured error echoing the exact allow-list. -/
theorem claim_C5_validation_exact_membership :
    ∀ (rel h i : String) (d : Bool) (up : List PageResult) (l : Nat),
      (rel ∈ FILE_RELATIONSHIPS →
        (get_entities_related_to_a_file h rel d up l).sessionAcquired
          = true ∧
        ∀ m, (get_entities_related_to_a_file h rel d up l).result ≠
          RelToolResult.errorMsg m) ∧
      (rel ∉ FILE_RELATIONSHIPS →
        (get_entities_related_to_a_file h rel d up l).result =
          RelToolResult.errorMsg
            (unknownRelationshipMsg rel FILE_RELATIONSHIPS)) ∧
      (rel ∈ HUNTING_RULESET_RELATIONSHIPS →
        (get_entities_related_to_a_hunting_ruleset i rel up l).sessionAcquired = true ∧
        ∀ m, (get_entities_related_to_a_hunting_ruleset i rel up l).result ≠
          RelToolResult.errorMsg m) ∧
      (rel ∉ HUNTING_RULESET_RELATIONSHIPS →
        (get_entities_related_to_a_hunting_ruleset i rel up l).result =
          RelToolResult.errorMsg
            (unknownRelationshipMsg rel HUNTING_RULESET_RELATIONSHIPS)) := by
  intro rel h i d up l
  refine ⟨?_, ?_, ?_, ?_⟩
  · intro hrel
    unfold get_entities_related_to_a_file
    simp only [if_pos hrel, vt_client, close_async]
    refine ⟨by simp, ?_⟩
    intro m
    cases hfetch : fetch_object_relationships up l with
    | ok ys => simp [hfetch]
    | error e => simp [hfetch]
  · intro hrel
    unfold get_entities_related_to_a_file
    simp [if_neg hrel]
  · intro hrel
    unfold get_entities_related_to_a_hunting_ruleset
    simp only [if_pos hrel, vt_client, close_async]
    refine ⟨by simp, ?_⟩
    intro m
    cases hfetch : fetch_object_relationships up l with
    | ok ys => simp [hfetch]
    | error e => simp [hfetch]
  · intro hrel
    unfold get_entities_related_to_a_hunting_ruleset
    simp [if_neg hrel]

/-- Witness for C5: contacted_domains proceeds; the case variant
Contacted_domains and the prefix contacted of valid names are both
rejected with the error echoing the allow-list. -/
theorem claim_C5_witness :
    (get_entities_related_to_a_file "aaa" "contacted_domains" true []
      10).sessionAcquired = true ∧
    (get_entities_related_to_a_file "aaa" "Contacted_domains" true []
      10).result =
      RelToolResult.errorMsg
        (unknownRelationshipMsg "Contacted_domains" FILE_RELATIONSHIPS) ∧
    (get_entities_related_to_a_file "aaa" "contacted" true [] 10).result =
      RelToolResult.errorMsg
        (unknownRelationshipMsg "contacted" FILE_RELATIONSHIPS) ∧
    (get_entities_related_to_a_hunting_ruleset "rid"
      "hunting_notification_files" [] 10).sessionAcquired = true := by
  refine ⟨?_, ?_, ?_, ?_⟩
  · exact ((claim_C5_validation_exact_membership "contacted_domains" "aaa"
      "rid" true [] 10).1 (by decide)).1
  · exact (claim_C5_validation_exact_membership "Contacted_domains" "aaa"
      "rid" true [] 10).2.1 (by decide)
  · exact (claim_C5_validation_exact_membership "contacted" "aaa" "rid"
      true [] 10).2.1 (by decide)
  · exact ((claim_C5_validation_exact_membership
      "hunting_notification_files" "aaa" "rid" true [] 10).2.2.1
      (by decide)).1

/-- C6: url_id is deterministic, byte-identical input strings yield the
same entity identifier, and both URL tools use url_id of the url, not the
raw url string, as the entity identifier of the request they issue. -/
theorem claim_C6_url_id_deterministic_and_used :
    (∀ u v : String, u = v → url_id u = url_id v) ∧
    (∀ (u : String) (resp : ObjectResponse),
        (get_url_report u resp).request.entityId = url_id u) ∧
    (∀ (u rel : String) (d : Bool) (up : List PageResult) (l : Nat),
        rel ∈ URL_RELATIONSHIPS →
        (get_entities_related_to_a_url u rel d up l).requestedId =
          some (url_id u)) := by
  refine ⟨?_, ?_, ?_⟩
  · intro u v huv
    rw [huv]
  · intro u resp
    rfl
  · intro u rel d up l hrel
    unfold get_entities_related_to_a_url
    simp only [if_pos hrel]

/-- Witness for C6: two calls of url_id on the byte-identical string
http://a agree, the derived identifier differs from the raw string, and
the analyses relationship request for that url carries the derived
identifier. -/
theorem claim_C6_witness :
    url_id "http://a" = url_id "http://a" ∧
    url_id "http://a" ≠ "http://a" ∧
    (get_entities_related_to_a_url "http://a" "analyses" true [] 10).requestedId =
      some (url_id "http://a") :=
  ⟨claim_C6_url_id_deterministic_and_used.1 "http://a" "http://a" rfl,
   by decide,
   claim_C6_url_id_deterministic_and_used.2.2 "http://a" "analyses" true
     [] 10 (by decide)⟩

/-- C7: a Session, once acquired, is released on every exit path: the
vt_client scope closes the client for every body, the single-object tools
always finish with the session closed, in particular when fetch_object
answers NotFound, and the relationship tools close the session whenever
the validation check passes and the client is acquired. -/
theorem claim_C7_session_always_released :
    (∀ (α : Type) (body : Session → α × Session),
        (vt_client body).2.closed = true) ∧
    (∀ (h : String) (resp : ObjectResponse),
        (get_file_report h resp).sessionClosed = true) ∧
    (∀ (u : String) (resp : ObjectResponse),
        (get_url_report u resp).sessionClosed = true) ∧
    (∀ (h : String) (resp : ObjectResponse), resp.status = 404 →
        (get_file_report h resp).result =
          Except.error (FetchError.NotFound "files" h) ∧
        (get_file_report h resp).sessionClosed = true) ∧
    (∀ (h r : String) (d : Bool) (up : List PageResult) (l : Nat),
        r ∈ FILE_RELATIONSHIPS →
        (get_entities_related_to_a_file h r d up l).sessionClosed
          = true) := by
  refine ⟨?_, ?_, ?_, ?_, ?_⟩
  · intro α body
    rfl
  · intro h resp
    rfl
  · intro u resp
    rfl
  · intro h resp h404
    constructor
    · unfold get_file_report
      simp only [vt_client, close_async, fetch_object]
      have hne : resp.status ≠ 200 := by omega
      simp [if_neg hne, if_pos h404, Except.map]
    · rfl
  · intro h r d up l hrel
    unfold get_entities_related_to_a_file
    simp [if_pos hrel, vt_client, close_async]

/-- Witness for C7: fetching a nonexistent file hash, a 404 upstream
answer, returns NotFound and still finishes with the session closed. -/
theorem claim_C7_witness :
    (get_file_report "deadbeef" { status := 404, body := JsonVal.null }).result =
      Except.error (FetchError.NotFound "files" "deadbeef") ∧
    (get_file_report "deadbeef" { status := 404, body := JsonVal.null }).sessionClosed =
      true :=
  claim_C7_session_always_released.2.2.2.1 "deadbeef"
    { status := 404, body := JsonVal.null } rfl

/-- C8: the search tool forwards the query string and the order_by sort
key verbatim as the query and order parameters of the
/intelligence/search call, with no interpretation of a trailing plus or
minus, and get_whois forwards the query verbatim to
/intelligence/whois_search. -/
theorem claim_C8_query_passthrough :
    ∀ (q o : String) (up : List PageResult) (l : Nat),
      (search q up l o).1.path = "/intelligence/search" ∧
      (search q up l o).1.params = [("query", q), ("order", o)] ∧
      (search q up l o).1.limit = l ∧
      (get_whois q up l).1.path = "/intelligence/whois_search" ∧
      (get_whois q up l).1.params = [("query", q)] ∧
      (get_whois q up l).1.limit = l := by
  intro q o up l
  exact ⟨rfl, rfl, rfl, rfl, rfl, rfl⟩

/-- C9: the string behaviours is not a member of FILE_RELATIONSHIPS, so
the call get_file_behavior_report's documentation directs callers to make
always returns the structured error and performs zero network calls. -/
theorem claim_C9_behaviours_not_a_file_relationship :
    "behaviours" ∉ FILE_RELATIONSHIPS ∧
    ∀ (h : String) (d : Bool) (up : List PageResult) (l : Nat),
      (get_entities_related_to_a_file h "behaviours" d up l).result =
        RelToolResult.errorMsg
          (unknownRelationshipMsg "behaviours" FILE_RELATIONSHIPS) ∧
      (get_entities_related_to_a_file h "behaviours" d up l).networkCalls = 0 ∧
      (get_entities_related_to_a_file h "behaviours" d up l).sessionAcquired = false := by
  have hmem : "behaviours" ∉ FILE_RELATIONSHIPS := by decide
  refine ⟨hmem, ?_⟩
  intro h d up l
  unfold get_entities_related_to_a_file
  simp [if_neg hmem]

/-- C10: get_file_behavior_summary subscripts the decoded body with the
key data and no guard: a body without that key makes the call fail with
an uncaught KeyError, and a body with it returns the sanitized value. -/
theorem claim_C10_behavior_summary_unguarded_subscript :
    ∀ (h : String) (res : List (String × JsonVal)),
      (lookupKey res "data" = none →
        (get_file_behavior_summary h res).2 =
          Except.error (PyError.KeyError "data")) ∧
      (∀ v, lookupKey res "data" = some v →
        (get_file_behavior_summary h res).2 =
          Except.ok (sanitize_response v)) := by
  intro h res
  constructor
  · intro hnone
    unfold get_file_behavior_summary dictSubscript
    rw [hnone]
    rfl
  · intro v hsome
    unfold get_file_behavior_summary dictSubscript
    rw [hsome]
    rfl

/-- Witness for C10: a body holding only an error entry makes the call
fail with KeyError, and a body carrying a data entry returns its
sanitized value. -/
theorem claim_C10_witness :
    (get_file_behavior_summary "deadbeef"
        [("error", JsonVal.str "quota")]).2 =
      Except.error (PyError.KeyError "data") ∧
    (get_file_behavior_summary "deadbeef"
        [("data", JsonVal.num 7)]).2 =
      Except.ok (sanitize_response (JsonVal.num 7)) :=
  ⟨(claim_C10_behavior_summary_unguarded_subscript "deadbeef"
      [("error", JsonVal.str "quota")]).1 rfl,
   (claim_C10_behavior_summary_unguarded_subscript "deadbeef"
      [("data", JsonVal.num 7)]).2 (JsonVal.num 7) rfl⟩

end GtiMcp
